import Mathlib

/-!
Shallow embedding of the Unchained service-worker build pipeline
(lib/core.js, lib/plugins/*.js and the resolve plugin) together with
theorems about its specification.

JavaScript strings are modelled as Lean `String`; nullable strings as
`Option String` (`none` = `null`); JS truthiness of a nullable string is
`jsTruthyOpt` (`null` and `""` are falsy).  Network effects (HEAD probes,
`package.json` fetches) are modelled by an explicit `World` record of
response functions, and the resolve plugin's module-level `CACHE` object
by an explicit association list threaded through `browserResolve`.
-/

namespace Unchained

/-! ### JS string primitives -/

/-- `p` starts the list `s` (JS `String.prototype.startsWith` on char lists). -/
def listStarts : List Char → List Char → Bool
  | [], _ => true
  | _ :: _, [] => false
  | p :: ps, s :: ss => p = s && listStarts ps ss

/-- `strStarts p s`: the string `p` starts the string `s`. -/
def strStarts (p s : String) : Bool :=
  listStarts p.data s.data

/-- `needle` occurs inside `hay` (substring occurrence on char lists). -/
def listContainsSub (needle : List Char) : List Char → Bool
  | [] => listStarts needle []
  | c :: cs => listStarts needle (c :: cs) || listContainsSub needle cs

/-- JS `s.includes t`: `t` occurs as a substring of `s`. -/
def jsIncludes (s t : String) : Bool :=
  listContainsSub t.data s.data

/-- Helper for `splitChar`: accumulate the current chunk (reversed). -/
def splitCharAux (sep : Char) : List Char → List Char → List String
  | [], acc => [String.mk acc.reverse]
  | c :: cs, acc =>
    if c = sep then String.mk acc.reverse :: splitCharAux sep cs []
    else splitCharAux sep cs (c :: acc)

/-- JS `s.split(sep)` for a one-character separator. -/
def splitChar (s : String) (sep : Char) : List String :=
  splitCharAux sep s.data []

/-- JS `str.replace(/^\/*/, '').replace(/\/*$/, '')`. -/
def trimSlashes (s : String) : String :=
  String.mk (((s.data.dropWhile (fun c => c = '/')).reverse.dropWhile
    (fun c => c = '/')).reverse)

/-- JS truthiness of a nullable string: `null` and `""` are falsy. -/
def jsTruthyOpt : Option String → Bool
  | none => false
  | some s => s ≠ ""

/-- JS `a || b` for a nullable string `a` and string `b`. -/
def jsOrStr (a : Option String) (b : String) : String :=
  match a with
  | some s => if s = "" then b else s
  | none => b

/-! ### The resolve plugin (lib/plugins/resolve.js, `browserResolve`) -/

/-- A HEAD-probe response: `ok` status and the `Content-Type` header. -/
structure HeadRes where
  ok : Bool
  contentType : Option String
deriving DecidableEq

/-- A parsed `package.json`: the `module` and `main` fields. -/
structure Pkg where
  moduleField : Option String
  mainField : Option String
deriving DecidableEq

/-- The network environment seen by the resolver: `head url` is the HEAD
probe of `url` (`none` = null response), `pkgJson url` the GET of a
`package.json` (`none` = not ok; `some none` = ok but falsy JSON). -/
structure World where
  head : String → Option HeadRes
  pkgJson : String → Option (Option Pkg)

/-- JS `basename`: last `/`-separated part of the path. -/
def basename (path : String) : String :=
  (splitChar path '/').getLastD ""

/-- JS `extname`: last dot extension of the basename, or null. -/
def extname (path : String) : Option String :=
  let exts := splitChar (basename path) '.'
  if exts.length > 1 then some (exts.getLastD "") else none

/-- JS `join(...paths)`: trim `/` from both ends of each part, join with `/`. -/
def jsJoin (paths : List String) : String :=
  String.intercalate "/" (paths.map trimSlashes)

/-- JS `isRelative`: `/^[./]/.test(path)`. -/
def isRelative (path : String) : Bool :=
  match path.data with
  | [] => false
  | c :: _ => c = '.' || c = '/'

/-- JS `relative(from, to)`: lexical resolution of `to` against the
directory of `from` (`.` skipped, `..` pops, other segments pushed). -/
def relative (referrer target : String) : String :=
  let stack := ((splitChar referrer '/').filter (fun p => p ≠ "")).dropLast
  let parts := (splitChar target '/').filter (fun p => p ≠ "")
  String.intercalate "/"
    (parts.foldl
      (fun st part =>
        if part = "." then st
        else if part = ".." then st.dropLast
        else st ++ [part])
      stack)

/-- JS `moduleInfo`: split a bare specifier into module name (two leading
parts when scoped with `@`) and inner pathname. -/
def moduleInfo (module : String) : String × String :=
  let isScoped : Bool :=
    match module.data with
    | '@' :: _ => true
    | _ => false
  let parts := splitChar module '/'
  (String.intercalate "/" (parts.take (if isScoped then 2 else 1)),
   String.intercalate "/" (parts.drop (if isScoped then 2 else 1)))

/-- One HEAD existence probe of `/file`: a file iff the response is
non-null, ok and carries a truthy `Content-Type`. -/
def isFileOnce (w : World) (file : String) : Option String :=
  match w.head ("/" ++ file) with
  | some res => if res.ok && jsTruthyOpt res.contentType then some file else none
  | none => none

/-- JS `isFile(file, extension)`: probe with the inferred default
extension first, then retry the original name when an extension was
auto-appended (the recursive call in the source passes `false`, so it
terminates after one retry, inlined here). -/
def isFile (w : World) (file : String) (extension : Option String) : Option String :=
  let file' :=
    if jsTruthyOpt extension && (extname file).isNone then
      file ++ "." ++ extension.getD ""
    else file
  match isFileOnce w file' with
  | some f => some f
  | none => if file' ≠ file then isFileOnce w file else none

/-- JS `loadAsPackage(module)`: fetch `module/package.json` and join the
module with its `module || main || 'index.js'` entry. -/
def loadAsPackage (w : World) (module : String) : Option String :=
  let packagePath := jsJoin [module, "package.json"]
  match w.pkgJson ("/" ++ packagePath) with
  | some (some pkg) =>
      some (jsJoin [module, jsOrStr pkg.moduleField (jsOrStr pkg.mainField "index.js")])
  | some none => none
  | none => none

/-- The resolve plugin's module-level `CACHE` object. -/
abbrev RCache := List (String × String)

/-- JS property read `CACHE[to]`. -/
def cacheGet (c : RCache) (k : String) : Option String :=
  match c.find? (fun p => p.1 = k) with
  | some p => some p.2
  | none => none

/-- JS template `` `/${res}` `` applied to a nullable string: `null`
stringifies to `"null"`. -/
def jsNullTemplate (res : Option String) : String :=
  "/" ++ (match res with | some s => s | none => "null")

/-- JS `browserResolve(from, to)` (the commented copy shipped in
`dist/unchained.sw.js`): cache lookup, then relative resolution via
`isFile (relative from to)`, otherwise npm-module resolution (package
lookup when no inner path, direct file probe otherwise), memoizing
successful npm resolutions; the tail returns `` `/${res}` ``
unconditionally. Returns the produced string and the updated cache. -/
def browserResolve (w : World) (cache : RCache) (referrer target : String) :
    String × RCache :=
  if jsTruthyOpt (cacheGet cache target) then
    (jsNullTemplate (cacheGet cache target), cache)
  else if isRelative target then
    (jsNullTemplate (isFile w (relative referrer target) (some "js")), cache)
  else
    let info := moduleInfo target
    let res :=
      if info.2 = "" then loadAsPackage w ("node_modules/" ++ info.1)
      else isFile w ("node_modules/" ++ info.1 ++ "/" ++ info.2) (some "js")
    let cache' := if jsTruthyOpt res then (target, res.getD "") :: cache else cache
    (jsNullTemplate res, cache')

/-- `ResolvePlugin.resolve(from, to)`: returns `browserResolve` verbatim
(always a string, never null, in the shipped copy). -/
def resolvePluginResolve (w : World) (cache : RCache) (referrer target : String) :
    Option String :=
  some (browserResolve w cache referrer target).1

/-! ### Core data model (lib/core.js) -/

/-- A top-level statement of the Babel AST program body, reduced to the
fields the core inspects: its ESTree `type` string and, for import/export
declarations, the literal `source.value` specifier (`none` when absent). -/
structure TopStmt where
  type : String
  source : Option String
deriving DecidableEq

/-- The opaque Babel AST as far as the core reads it: `ast.program.body`. -/
structure BabelAst where
  body : List TopStmt
deriving DecidableEq

/-- `FileAnalysis`: the result threaded through the pipeline stages. -/
structure FileAnalysis where
  code : String
  ast : Option BabelAst
  map : Option String
deriving DecidableEq

/-- `FileDefinition`: url, MIME type and contents of the fetched file. -/
structure UFile where
  url : String
  type : String
  content : String
deriving DecidableEq

/-- A configured plugin instance: declared MIME types, the custom part of
the applicability test (overrides conjoin it with the base test), and the
optional `transform` capability. -/
structure UPlugin where
  types : List String
  custom : UFile → Bool
  transformFn : Option (UFile → FileAnalysis → FileAnalysis)

/-- `UnchainedPlugin.test` base part:
`!!checkTypes.find((type) => file.type.includes(type))` — note JS `find`
returns the element, so a found empty string is falsy. -/
def baseTest (types : List String) (fileType : String) : Bool :=
  match types.find? (fun t => jsIncludes fileType t) with
  | some t => t ≠ ""
  | none => false

/-- Full applicability test of a plugin for a file: the custom part (if
any) conjoined with the base MIME-type test, as every override in the
source does `custom && super.test(file)`. -/
def pluginTest (p : UPlugin) (file : UFile) : Bool :=
  p.custom file && baseTest p.types file.type

/-- `filterPlugins(method)`: keep plugins exposing the method, then keep
those whose `test` accepts the file, preserving configuration order. -/
def filterPlugins (plugins : List UPlugin) (file : UFile)
    (hasMethod : UPlugin → Bool) : List UPlugin :=
  (plugins.filter hasMethod).filter (fun p => pluginTest p file)

/-- Apply a plugin's transform (identity when the capability is absent;
`filterPlugins` guarantees presence on the filtered list). -/
def applyTransform (p : UPlugin) (file : UFile) (res : FileAnalysis) : FileAnalysis :=
  match p.transformFn with
  | some f => f file res
  | none => res

/-- The transform phase (`Unchained.transform` loop): start from the fake
initial analysis and fold the applicable transform plugins in order. -/
def transformPhase (plugins : List UPlugin) (file : UFile) : FileAnalysis :=
  (filterPlugins plugins file (fun p => p.transformFn.isSome)).foldl
    (fun res p => applyTransform p file res)
    { code := file.content, ast := none, map := none }

/-! ### Core resolve phase (lib/core.js `resolve`) -/

/-- The three visitor keys of `collectDependencies` /
`updateDependencies`: `ImportDeclaration`, `ExportNamedDeclaration`,
`ExportAllDeclaration`. -/
def isVisitorType (t : String) : Bool :=
  t = "ImportDeclaration" || t = "ExportNamedDeclaration" || t = "ExportAllDeclaration"

/-- The resolution attempts queued by `collectDependencies`: one promise
is pushed per visited declaration carrying a source — there is no
deduplication of equal specifier texts. -/
def collectAttempts (body : List TopStmt) : List String :=
  body.filterMap (fun n => if isVisitorType n.type then n.source else none)

/-- The inner loop of one queued resolution: try each `resolve` plugin in
configuration order, first truthy result wins. -/
def resolveSpec (resolvers : List (String → String → Option String))
    (url s : String) : Option String :=
  match resolvers with
  | [] => none
  | r :: rest =>
    match r url s with
    | some v => if v ≠ "" then some v else resolveSpec rest url s
    | none => resolveSpec rest url s

/-- The `dependencies` map built by the queued resolutions: for each
attempt whose resolution is truthy, map the specifier to
`` `${resolved}?unchained=${version}` ``. -/
def buildDependencies (resolvers : List (String → String → Option String))
    (url : String) (attempts : List String) : List (String × String) :=
  attempts.foldl
    (fun dep s =>
      match resolveSpec resolvers url s with
      | some v => if v ≠ "" then (s, v ++ "?unchained=0.2.0") :: dep else dep
      | none => dep)
    []

/-- `updateDependencies`: rewrite each visited declaration whose source
has a truthy entry in the dependencies map. -/
def updateDependencies (dep : List (String × String)) (body : List TopStmt) :
    List TopStmt :=
  body.map (fun n =>
    if isVisitorType n.type then
      match n.source with
      | some s =>
        (match cacheGet dep s with
         | some v => if v ≠ "" then { n with source := some v } else n
         | none => n)
      | none => n
    else n)

/-! ### Cache validator (lib/core.js `resolveCache` / `resolve`) -/

/-- A network response as the cache validator reads it. -/
structure WResponse where
  ok : Bool
  headers : List (String × String)
  body : String
deriving DecidableEq

/-- `headers.get(k)`: the header value or null. -/
def hGet (hs : List (String × String)) (k : String) : Option String :=
  match hs.find? (fun p => p.1 = k) with
  | some p => some p.2
  | none => none

/-- `Unchained.resolveCache`: serve the cached response only when it
exists, the HEAD probe response is non-null and ok, and the probe's
`ETag` strictly equals the cached `ETag` (JS `===`, where two absent
headers compare equal as `null === null`). -/
def resolveCache (cached : Option WResponse) (probe : Option WResponse) :
    Option WResponse :=
  match cached with
  | some c =>
    (match probe with
     | some r =>
       if r.ok && (hGet r.headers "ETag" == hGet c.headers "ETag") then some c
       else none
     | none => none)
  | none => none

/-- Header value coercion of the `Headers` init record: a JS `null`
header value stringifies to `"null"`. -/
def headerInitValue : Option String → String
  | some s => s
  | none => "null"

/-- The `new Response(converted, { headers: ... })` built on a cache
miss: the original `ETag` (stringified) and a forced `Content-Type`. -/
def finalResponse (resp : WResponse) (converted : String) : WResponse :=
  { ok := true,
    headers := [("ETag", headerInitValue (hGet resp.headers "ETag")),
                ("Content-Type", "text/javascript")],
    body := converted }

/-- `Unchained.resolve(event)`: serve from cache on a validator HIT,
otherwise fetch the remote response, run the transformation pipeline
`exec` over its contents and cache/return the final response; a null
remote response rejects (`none`). -/
def unchainedResolve (cached probe remote : Option WResponse)
    (exec : String → String) : Option WResponse :=
  match resolveCache cached probe with
  | some c => some c
  | none =>
    match remote with
    | some resp => some (finalResponse resp (exec resp.body))
    | none => none

/-! ### JSON / Text plugins (lib/plugins/json.js, text.js) -/

/-- `JSONPlugin.transform`: wrap raw JSON as `export default <json>` only
when no previous plugin produced an AST; `babel` stands for the opaque
`Unchained.transform(url, { code })` call. -/
def jsonTransform (babel : String → String → FileAnalysis) (file : UFile)
    (result : FileAnalysis) : FileAnalysis :=
  if result.ast.isNone then babel file.url ("export default " ++ result.code)
  else result

/-- JS `` result.code.replace(/`/g, '\\`') ``. -/
def escapeBackticks (s : String) : String :=
  String.mk (s.data.foldr
    (fun c acc => if c = '`' then '\\' :: '`' :: acc else c :: acc) [])

/-- `TextPlugin.transform`: wrap escaped text in a template literal
`export default` only when no previous plugin produced an AST. -/
def textTransform (babel : String → String → FileAnalysis) (file : UFile)
    (result : FileAnalysis) : FileAnalysis :=
  if result.ast.isNone then
    babel file.url ("export default `" ++ escapeBackticks result.code ++ "`")
  else result

/-! ### Common plugin (lib/plugins/common.js `commonWrap`) -/

/-- Program-body statements as `commonWrap` produces and inspects them:
opaque statements with their ESTree type (and import/export source), and
the three wrapper nodes the plugin builds. -/
inductive JsNode where
  | stmt (ntype : String) (source : Option String)
  | varDeclModule (name : String)
  | wrapCall (name : String) (body : List JsNode)
  | exportDefaultMember (name : String)

/-- The ESTree `type` of a node. -/
def nodeType : JsNode → String
  | .stmt t _ => t
  | .varDeclModule _ => "VariableDeclaration"
  | .wrapCall _ _ => "ExpressionStatement"
  | .exportDefaultMember _ => "ExportDefaultDeclaration"

/-- The regex `/^(?:Import|Export(?:Named|Default|All))Declaration/`:
one of the four declaration names starts the type string. -/
def impExpRegexTest (t : String) : Bool :=
  strStarts "ImportDeclaration" t || strStarts "ExportNamedDeclaration" t ||
  strStarts "ExportDefaultDeclaration" t || strStarts "ExportAllDeclaration" t

/-- `commonWrap`'s `Program` visitor: leave the body alone when any
top-level child is an ES6 import/export declaration; otherwise replace it
with the module declaration, the function-call wrap of the original body
and the `export default module.exports` statement. -/
def commonWrap (body : List JsNode) : List JsNode :=
  if body.any (fun c => impExpRegexTest (nodeType c)) then body
  else
    [.varDeclModule "_module",
     .wrapCall "_module" body,
     .exportDefaultMember "_module"]

/-! ### Example environments shared by the theorems -/

/-- A network where every existence probe fails (ok = false) and every
`package.json` fetch is not ok. -/
def failWorld : World :=
  { head := fun _ => some { ok := false, contentType := none },
    pkgJson := fun _ => none }

/-- A network where exactly `/src/util.js` and `/lib/x` exist as files
(ok HEAD with a truthy `Content-Type`) and no package manifest exists. -/
def exampleWorld : World :=
  { head := fun u =>
      if u = "/src/util.js" then some { ok := true, contentType := some "text/javascript" }
      else if u = "/lib/x" then some { ok := true, contentType := some "text/javascript" }
      else some { ok := false, contentType := none },
    pkgJson := fun _ => none }

/-! ### Claims -/

/-- Claim C1 exhibit (code bug): when no probe and no package lookup can
satisfy a specifier, the shipped `browserResolve` still returns the truthy
string `"/null"` (its tail templates the null result), so the core's
`if (resolved)` guard passes and the authored specifier `./missing` is
rewritten to `/null?unchained=0.2.0` instead of being left byte-for-byte
untouched as the spec requires; the bare specifier `left-pad` is likewise
rewritten. -/
theorem claim1_unresolved_specifier_rewritten :
    resolvePluginResolve failWorld [] "/src/app.js" "./missing" = some "/null" ∧
    resolvePluginResolve failWorld [] "/src/app.js" "left-pad" = some "/null" ∧
    updateDependencies
        (buildDependencies [resolvePluginResolve failWorld []] "/src/app.js"
          (collectAttempts [{ type := "ImportDeclaration", source := some "./missing" }]))
        [{ type := "ImportDeclaration", source := some "./missing" }]
      = [{ type := "ImportDeclaration", source := some "/null?unchained=0.2.0" }] := by
  decide

/-- Claim C2: the cache validator serves a stored artifact iff a cached
entry exists, the HEAD probe is present with an ok status, and the
probe's ETag equals the stored ETag; on a HIT the served response is the
cached one and the transformation pipeline `exec` is never consulted; in
every other case it returns null and the full fetch-plus-transform
pipeline runs over the remote response. -/
theorem claim2_cache_validator_hit_iff :
    (∀ cached probe : Option WResponse, ∀ c : WResponse,
      resolveCache cached probe = some c ↔
        (cached = some c ∧ ∃ r, probe = some r ∧ r.ok = true ∧
          hGet r.headers "ETag" = hGet c.headers "ETag")) ∧
    (∀ cached probe remote : Option WResponse, ∀ exec : String → String,
      ∀ c : WResponse, resolveCache cached probe = some c →
        unchainedResolve cached probe remote exec = some c) ∧
    (∀ cached probe : Option WResponse, ∀ resp : WResponse,
      ∀ exec : String → String, resolveCache cached probe = none →
        unchainedResolve cached probe (some resp) exec
          = some (finalResponse resp (exec resp.body))) := by
  refine ⟨?_, ?_, ?_⟩
  · intro cached probe c
    cases cached with
    | none => simp [resolveCache]
    | some c' =>
      cases probe with
      | none => simp [resolveCache]
      | some r =>
        simp only [resolveCache]
        by_cases hcond : (r.ok && (hGet r.headers "ETag" == hGet c'.headers "ETag")) = true
        · rw [if_pos hcond]
          rw [Bool.and_eq_true, beq_iff_eq] at hcond
          simp only [Option.some.injEq]
          constructor
          · rintro rfl
            exact ⟨rfl, r, rfl, hcond.1, hcond.2⟩
          · rintro ⟨h1, _⟩
            exact h1
        · rw [if_neg hcond]
          constructor
          · intro h
            exact absurd h (by simp)
          · rintro ⟨h1, r', hr', hok, het⟩
            injection hr' with hrr
            injection h1 with hcc
            subst hrr
            subst hcc
            exact absurd (by simp [hok, het]) hcond
  · intro cached probe remote exec c h
    unfold unchainedResolve
    rw [h]
  · intro cached probe resp exec h
    unfold unchainedResolve
    rw [h]

/-- Claim C2 witness: on a concrete HIT (matching ETag `"abc"`) the
validator serves the cached artifact unchanged. -/
theorem claim2_cache_validator_hit_iff_witness :
    unchainedResolve
        (some { ok := true, headers := [("ETag", "abc")], body := "cached" })
        (some { ok := true, headers := [("ETag", "abc")], body := "" })
        none (fun s => s)
      = some { ok := true, headers := [("ETag", "abc")], body := "cached" } :=
  claim2_cache_validator_hit_iff.2.1
    (some { ok := true, headers := [("ETag", "abc")], body := "cached" })
    (some { ok := true, headers := [("ETag", "abc")], body := "" })
    none (fun s => s)
    { ok := true, headers := [("ETag", "abc")], body := "cached" }
    (by decide)

/-- Claim C3 counterexample: `collectDependencies` pushes one resolution
promise per visited declaration with no deduplication, so a file with two
top-level imports of the same specifier `x` issues two resolution
attempts, refuting "at most one resolution attempt per specifier". -/
theorem claim3_duplicate_specifier_two_attempts :
    (collectAttempts
        [{ type := "ImportDeclaration", source := some "x" },
         { type := "ImportDeclaration", source := some "x" }]).count "x" = 2 ∧
    ¬ ((collectAttempts
        [{ type := "ImportDeclaration", source := some "x" },
         { type := "ImportDeclaration", source := some "x" }]).count "x" ≤ 1) := by
  decide

/-- Claim C3 amended: the resolve phase issues exactly one resolution
attempt per top-level import/export declaration carrying that specifier
text (duplicates issue duplicate attempts; the dependencies map, keyed by
specifier text, still records a single rewrite target). -/
theorem claim3_attempts_per_declaration (body : List TopStmt) (s : String) :
    (collectAttempts body).count s =
      (body.filter (fun n => isVisitorType n.type && n.source == some s)).length := by
  induction body with
  | nil => rfl
  | cons n rest ih =>
    unfold collectAttempts at *
    by_cases hv : isVisitorType n.type
    · cases hsrc : n.source with
      | none => simp [List.filterMap_cons, hv, hsrc, ih]
      | some v =>
        by_cases hvs : v = s
        · simp [List.filterMap_cons, hv, hsrc, hvs, List.count_cons, ih]
        · simp [List.filterMap_cons, hv, hsrc, hvs, List.count_cons, ih]
    · simp [List.filterMap_cons, hv, ih]

/-- Claim C4 counterexample: a relative specifier resolves against the
referrer's directory, so the same specifier text `./util` yields
different results from two different referrers (`/src/util.js` exists,
`/lib2/util.js` does not), refuting referrer-independence for every
specifier. -/
theorem claim4_relative_referrer_dependent :
    browserResolve exampleWorld [] "/src/app.js" "./util" = ("/src/util.js", []) ∧
    browserResolve exampleWorld [] "/lib2/app.js" "./util" = ("/null", []) ∧
    browserResolve exampleWorld [] "/src/app.js" "./util"
      ≠ browserResolve exampleWorld [] "/lib2/app.js" "./util" := by
  decide

/-- Claim C4 amended: for non-relative (bare package) specifiers the
referrer argument is never consulted, so `resolve(f1, s)` equals
`resolve(f2, s)` for any two referrers and any cache state; relative
specifiers, by contrast, depend on the referrer. -/
theorem claim4_bare_specifier_referrer_independent (w : World) (c : RCache)
    (f1 f2 t : String) (h : isRelative t = false) :
    browserResolve w c f1 t = browserResolve w c f2 t := by
  simp [browserResolve, h]

/-- Claim C4 amended witness: the bare specifier `left-pad` resolves the
same way from two different referrers. -/
theorem claim4_bare_specifier_referrer_independent_witness :
    browserResolve exampleWorld [] "/src/app.js" "left-pad"
      = browserResolve exampleWorld [] "/lib/app.js" "left-pad" :=
  claim4_bare_specifier_referrer_independent exampleWorld [] "/src/app.js"
    "/lib/app.js" "left-pad" (by decide)

/-- Claim C5: first-transform-wins — when the incoming analysis already
carries an AST, the JSON and Text plugins return it unchanged, for every
opaque code transformer `babel`; the `export default` wrapping happens
only when the AST is absent. -/
theorem claim5_first_transform_wins (babel : String → String → FileAnalysis)
    (file : UFile) (result : FileAnalysis) (a : BabelAst)
    (h : result.ast = some a) :
    jsonTransform babel file result = result ∧
    textTransform babel file result = result := by
  constructor
  · unfold jsonTransform
    rw [h]
    rfl
  · unfold textTransform
    rw [h]
    rfl

/-- Claim C5 witness: a JSON file already carrying an AST passes through
both plugins unchanged. -/
theorem claim5_first_transform_wins_witness :
    jsonTransform (fun _ _ => { code := "", ast := none, map := none })
        { url := "/a.json", type := "application/json", content := "{}" }
        { code := "{}", ast := some { body := [] }, map := none }
      = { code := "{}", ast := some { body := [] }, map := none } ∧
    textTransform (fun _ _ => { code := "", ast := none, map := none })
        { url := "/a.json", type := "application/json", content := "{}" }
        { code := "{}", ast := some { body := [] }, map := none }
      = { code := "{}", ast := some { body := [] }, map := none } :=
  claim5_first_transform_wins _ _ _ { body := [] } rfl

/-- A plugin with the default declared MIME types and no custom test. -/
def defaultTypesPlugin : UPlugin :=
  { types := ["application/javascript", "text/javascript"],
    custom := fun _ => true,
    transformFn := none }

/-- A file whose MIME type contains a declared type as an inner
substring but not as a prefix. -/
def innerTypeFile : UFile :=
  { url := "/a.js", type := "x/text/javascript", content := "" }

/-- Claim C6 counterexample: the base applicability test uses JS
`String.prototype.includes` (substring occurrence), not prefix matching:
a file of MIME type `x/text/javascript` is accepted by the default
declared types even though none of them is a prefix of it, refuting the
"iff at least one declared entry is a prefix" claim. -/
theorem claim6_substring_match_counterexample :
    pluginTest defaultTypesPlugin innerTypeFile = true ∧
    defaultTypesPlugin.types.any (fun t => strStarts t innerTypeFile.type) = false := by
  decide

/-- Claim C6 amended: for every plugin whose declared type list contains
no empty entry, the plugin is applicable to a file iff at least one
declared MIME-type entry occurs as a substring of the file's MIME type
(JS `includes`) and, when the plugin defines a custom applicability
test, that test also returns true. -/
theorem claim6_applicable_iff_substring (p : UPlugin) (file : UFile)
    (h : "" ∉ p.types) :
    pluginTest p file
      = (p.custom file && p.types.any (fun t => jsIncludes file.type t)) := by
  unfold pluginTest baseTest
  congr 1
  cases hf : p.types.find? (fun t => jsIncludes file.type t) with
  | none =>
    have hnot : ¬ (p.types.any (fun t => jsIncludes file.type t) = true) := by
      intro hany
      rcases List.any_eq_true.mp hany with ⟨t, ht, hpt⟩
      have := List.find?_isSome.mpr ⟨t, ht, hpt⟩
      rw [hf] at this
      exact absurd this (by simp)
    simp [Bool.eq_false_iff.mpr hnot]
  | some t =>
    have hmem := List.mem_of_find?_eq_some hf
    have hne : t ≠ "" := fun he => h (he ▸ hmem)
    have hpt := List.find?_some hf
    have hany : p.types.any (fun t => jsIncludes file.type t) = true :=
      List.any_eq_true.mpr ⟨t, hmem, hpt⟩
    simp [hne, hany]

/-- Claim C6 amended witness: the counterexample file is applicable, and
the substring characterization evaluates accordingly. -/
theorem claim6_applicable_iff_substring_witness :
    pluginTest defaultTypesPlugin innerTypeFile
      = (defaultTypesPlugin.custom innerTypeFile &&
          defaultTypesPlugin.types.any (fun t => jsIncludes innerTypeFile.type t)) :=
  claim6_applicable_iff_substring defaultTypesPlugin innerTypeFile (by decide)

/-- Claim C7: relative specifiers resolve by pure lexical path-segment
resolution against the referrer's directory (for any network world, a
relative specifier routes through `isFile` on `relative referrer
specifier`, touching neither cache writes nor package lookup); `./util`
against `/src/app.js` resolves lexically to `src/util` and, with
`/src/util.js` existing, to `/src/util.js` after default-extension
inference; `../lib/x` resolves lexically to `lib/x` and, with `/lib/x`
existing (and `/lib/x.js` not), to `/lib/x`. -/
theorem claim7_relative_resolution :
    (∀ w : World, ∀ referrer target : String, isRelative target = true →
      browserResolve w [] referrer target
        = (jsNullTemplate (isFile w (relative referrer target) (some "js")), [])) ∧
    relative "/src/app.js" "./util" = "src/util" ∧
    relative "/src/app.js" "../lib/x" = "lib/x" ∧
    browserResolve exampleWorld [] "/src/app.js" "./util" = ("/src/util.js", []) ∧
    browserResolve exampleWorld [] "/src/app.js" "../lib/x" = ("/lib/x", []) := by
  refine ⟨?_, by decide, by decide, by decide, by decide⟩
  intro w referrer target h
  simp [browserResolve, cacheGet, jsTruthyOpt, h]

/-- Claim C7 witness: the generic lexical-routing part applied to a
concrete referrer and specifier. -/
theorem claim7_relative_resolution_witness :
    browserResolve exampleWorld [] "/pages/index.js" "./util"
      = (jsNullTemplate
          (isFile exampleWorld (relative "/pages/index.js" "./util") (some "js")), []) :=
  claim7_relative_resolution.1 exampleWorld "/pages/index.js" "./util" (by decide)

/-- Claim C8: the transform phase applies exactly the configured plugins
that expose a transform method and are applicable to the file, strictly
in configuration order (the applied list is a sublist of the configured
list), each stage consuming the previous FileAnalysis, starting from
`{ code: original content, ast: none, sourceMap: none }`. -/
theorem claim8_transform_phase_order (plugins : List UPlugin) (file : UFile) :
    transformPhase plugins file =
      (plugins.filter (fun p => p.transformFn.isSome && pluginTest p file)).foldl
        (fun res p => applyTransform p file res)
        { code := file.content, ast := none, map := none } ∧
    (plugins.filter (fun p => p.transformFn.isSome && pluginTest p file)).Sublist
      plugins := by
  constructor
  · unfold transformPhase filterPlugins
    rw [List.filter_filter]
    congr 1
    apply List.filter_congr
    intro a _
    exact Bool.and_comm (pluginTest a file) a.transformFn.isSome
  · exact List.filter_sublist plugins

/-- Claim C9: when the upstream response carries no ETag header, the
final response is stored with the stringified-null ETag `"null"`, which
can never equal an absent probe ETag, so the validator never serves the
stored artifact and every subsequent request re-runs the full
fetch-plus-transform pipeline. -/
theorem claim9_missing_etag_never_hit (resp probe : WResponse) (conv : String)
    (h : hGet resp.headers "ETag" = none)
    (hp : hGet probe.headers "ETag" = none) :
    hGet (finalResponse resp conv).headers "ETag" = some "null" ∧
    resolveCache (some (finalResponse resp conv)) (some probe) = none ∧
    resolveCache (some (finalResponse resp conv)) none = none ∧
    (∀ remote : WResponse, ∀ exec : String → String,
      unchainedResolve (some (finalResponse resp conv)) (some probe)
          (some remote) exec
        = some (finalResponse remote (exec remote.body))) := by
  have hstored : hGet (finalResponse resp conv).headers "ETag" = some "null" := by
    simp only [finalResponse]
    rw [h]
    rfl
  have hmiss : resolveCache (some (finalResponse resp conv)) (some probe) = none := by
    simp [resolveCache, hstored, hp]
  refine ⟨hstored, hmiss, rfl, ?_⟩
  intro remote exec
  unfold unchainedResolve
  rw [hmiss]

/-- Claim C9 witness: a concrete upstream response without ETag is stored
with ETag `"null"` and a concrete ETag-less probe never produces a HIT. -/
theorem claim9_missing_etag_never_hit_witness :
    hGet (finalResponse
        { ok := true, headers := [("Content-Type", "text/javascript")], body := "code" }
        "out").headers "ETag" = some "null" ∧
    resolveCache
        (some (finalResponse
          { ok := true, headers := [("Content-Type", "text/javascript")], body := "code" }
          "out"))
        (some { ok := true, headers := [], body := "" }) = none ∧
    resolveCache
        (some (finalResponse
          { ok := true, headers := [("Content-Type", "text/javascript")], body := "code" }
          "out"))
        none = none ∧
    (∀ remote : WResponse, ∀ exec : String → String,
      unchainedResolve
          (some (finalResponse
            { ok := true, headers := [("Content-Type", "text/javascript")], body := "code" }
            "out"))
          (some { ok := true, headers := [], body := "" })
          (some remote) exec
        = some (finalResponse remote (exec remote.body))) :=
  claim9_missing_etag_never_hit
    { ok := true, headers := [("Content-Type", "text/javascript")], body := "code" }
    { ok := true, headers := [], body := "" } "out" (by decide) (by decide)

/-- Claim C10: when the top-level program body contains at least one ES6
import/export declaration, `commonWrap`'s Program visitor leaves the body
unchanged; the CommonJS module/exports wrapping (module declaration,
function-call wrap of the body, `export default module.exports`) is
produced only when no such declaration is present. -/
theorem claim10_es_module_not_wrapped (body : List JsNode) :
    ((∃ n ∈ body, nodeType n ∈
        ["ImportDeclaration", "ExportNamedDeclaration",
         "ExportDefaultDeclaration", "ExportAllDeclaration"]) →
      commonWrap body = body) ∧
    (body.any (fun c => impExpRegexTest (nodeType c)) = false →
      commonWrap body =
        [.varDeclModule "_module", .wrapCall "_module" body,
         .exportDefaultMember "_module"]) := by
  constructor
  · rintro ⟨n, hn, hmem⟩
    have hany : body.any (fun c => impExpRegexTest (nodeType c)) = true := by
      refine List.any_eq_true.mpr ⟨n, hn, ?_⟩
      simp only [List.mem_cons, List.not_mem_nil, or_false] at hmem
      rcases hmem with h | h | h | h <;> rw [h] <;> decide
    simp [commonWrap, hany]
  · intro h
    simp [commonWrap, h]

/-- Claim C10 witness: a two-statement body starting with an import
declaration passes through `commonWrap` unchanged. -/
theorem claim10_es_module_not_wrapped_witness :
    commonWrap [.stmt "ImportDeclaration" (some "./x"), .stmt "ExpressionStatement" none]
      = [.stmt "ImportDeclaration" (some "./x"), .stmt "ExpressionStatement" none] :=
  (claim10_es_module_not_wrapped _).1
    ⟨.stmt "ImportDeclaration" (some "./x"), by simp, by simp [nodeType]⟩

end Unchained
